import Mathlib

/-!
Shallow embedding of the credential-management flow of `src/server.mjs`
(Express + sqlite3 + bcrypt backend): the `POST /signup` and `POST /login`
handlers, the validation regexes, and the `users` table.

Modelling choices:
- Strings are ASCII-oriented Lean `String`s; JavaScript's `toLowerCase` and
  `trim` are embedded as character-wise ASCII lowering and trimming of the
  ASCII whitespace characters matched by JS `\s` (space, tab, newline,
  carriage return, vertical tab, form feed).
- Request bodies are records of `Option String` fields: `none` models an
  absent JSON field, and JS truthiness `!x` on a string field is `none` or
  the empty string.
- The `users` table is a list of rows plus the next AUTOINCREMENT id; the
  `email TEXT UNIQUE` constraint makes the modelled INSERT fail (return no
  new store) when a row with the same email already exists.
- `bcrypt.hash` and `bcrypt.compare` are abstract parameters `hash :
  String → String` and `compare : String → String → Bool`; the round-trip
  `compare p (hash p) = true` is a hypothesis where a claim needs it, which
  quantifies over every salt bcrypt may draw.
- The callback passed to `db.run` for the INSERT in the signup handler takes
  no error argument in the source and unconditionally sends the success
  JSON; `signupInsertPhase` reproduces that faithfully.
-/

namespace BrokAi

/-- One row of the `users` table:
`id INTEGER PRIMARY KEY AUTOINCREMENT, username TEXT NOT NULL,
email TEXT UNIQUE NOT NULL, password TEXT NOT NULL`
(the `password` column stores the bcrypt hash). -/
structure User where
  id : Nat
  username : String
  email : String
  password : String
deriving Repr, DecidableEq

/-- The credential store: the rows of the `users` table in insertion
(rowid) order, plus the next AUTOINCREMENT id. -/
structure Store where
  rows : List User
  nextId : Nat
deriving Repr, DecidableEq

/-- The `user` object of a successful login response:
`{ id: user.id, username: user.username, email: user.email }`. -/
structure UserView where
  id : Nat
  username : String
  email : String
deriving Repr, DecidableEq

/-- A JSON response of the signup/login handlers: HTTP status
(`res.status(...)`, 200 when `res.json` is called directly), the `success`
flag, the `message`, and the optional `user` object. -/
structure Resp where
  status : Nat
  success : Bool
  message : String
  user : Option UserView
deriving Repr, DecidableEq

/-- JS truthiness test `!x` for an optional string field of `req.body`:
true when the field is absent or the empty string. -/
def falsy : Option String → Bool
  | none => true
  | some s => decide (s = "")

/-- ASCII whitespace matched by JS `\s` (and removed by `trim`):
space, tab, newline, carriage return, vertical tab, form feed. -/
def jsWhitespace (c : Char) : Bool :=
  c = ' ' || c = '\t' || c = '\n' || c = '\r' || c = '\x0b' || c = '\x0c'

/-- JS `String.prototype.trim` on ASCII input: drop leading and trailing
whitespace. -/
def trimJS (s : String) : String :=
  ⟨((s.data.dropWhile jsWhitespace).reverse.dropWhile jsWhitespace).reverse⟩

/-- JS `String.prototype.toLowerCase` on ASCII input: lower each character. -/
def toLowerJS (s : String) : String :=
  ⟨s.data.map Char.toLower⟩

/-- `email.toLowerCase().trim()` as performed by both handlers. -/
def normalizeEmail (s : String) : String :=
  trimJS (toLowerJS s)

/-- A character admitted by `[^\s@]` in the email regex. -/
def emailAtomChar (c : Char) : Bool :=
  !jsWhitespace c && c ≠ '@'

/-- The signup email check `/^[^\s@]+@[^\s@]+\.[^\s@]+$/`: a nonempty
run of non-whitespace non-`@` characters, one `@`, then a domain that
splits as two such nonempty runs around a dot.  Equivalently: everything
before the first `@` is nonempty whitespace-free, everything after it is
`@`-free and whitespace-free, and the domain has a dot that is neither its
first nor its last character. -/
def emailRegexTest (s : String) : Bool :=
  let l := s.data
  let locPart := l.takeWhile (fun c => c ≠ '@')
  match l.dropWhile (fun c => c ≠ '@') with
  | [] => false
  | _ :: domain =>
    !locPart.isEmpty && locPart.all emailAtomChar &&
    domain.all emailAtomChar && (domain.drop 1).dropLast.contains '.'

/-- Uppercase Latin letter, as `[A-Z]` in the password regex. -/
def pwUpper (c : Char) : Bool := decide ('A' ≤ c) && decide (c ≤ 'Z')

/-- Lowercase Latin letter, as `a-z` inside the regex's character class. -/
def pwLower (c : Char) : Bool := decide ('a' ≤ c) && decide (c ≤ 'z')

/-- Decimal digit, as `\d` in the password regex. -/
def pwDigit (c : Char) : Bool := decide ('0' ≤ c) && decide (c ≤ '9')

/-- The special characters `[@$!%*?&]` of the password regex. -/
def pwSpecial (c : Char) : Bool :=
  c = '@' || c = '$' || c = '!' || c = '%' || c = '*' || c = '?' || c = '&'

/-- A character admitted by the body class `[A-Za-z\d@$!%*?&]`. -/
def pwAllowed (c : Char) : Bool :=
  pwUpper c || pwLower c || pwDigit c || pwSpecial c

/-- The signup password check
`/^(?=.*[A-Z])(?=.*\d)(?=.*[@$!%*?&])[A-Za-z\d@$!%*?&]{8,}$/`:
at least 8 characters all drawn from the body class, containing at least
one uppercase letter, one digit and one listed special character. -/
def passwordRegexTest (p : String) : Bool :=
  decide (8 ≤ p.data.length) && p.data.all pwAllowed &&
  p.data.any pwUpper && p.data.any pwDigit && p.data.any pwSpecial

/-- `db.get("SELECT ... FROM users WHERE email = ?", [email], ...)`:
the first stored row whose email column equals the key, if any. -/
def dbGetByEmail (st : Store) (e : String) : Option User :=
  st.rows.find? (fun r => r.email = e)

/-- `db.run("INSERT INTO users (username, email, password) VALUES (?,?,?)")`
against the schema's `email TEXT UNIQUE` constraint: fails (returns `none`)
when a row with this email exists, otherwise appends the new row with the
next AUTOINCREMENT id. -/
def dbRunInsert (st : Store) (username email password : String) :
    Option Store :=
  if st.rows.any (fun r => r.email = email) then none
  else some ⟨st.rows ++ [⟨st.nextId, username, email, password⟩], st.nextId + 1⟩

/-- The INSERT step of the signup handler.  The source's callback
`() => { return res.json({ success: true, message: "Signup successful" }) }`
ignores the error argument sqlite3 passes to it, so the success response is
sent whether or not the INSERT succeeded; on failure the store is
unchanged. -/
def signupInsertPhase (st : Store) (username email hashed : String) :
    Store × Resp :=
  match dbRunInsert st username email hashed with
  | some st' => (st', ⟨200, true, "Signup successful", none⟩)
  | none => (st, ⟨200, true, "Signup successful", none⟩)

/-- The `POST /signup` handler (src/server.mjs lines 65-137), sequentially:
truthiness check of the three fields, email normalization, email-format
check, password-strength check, duplicate lookup, bcrypt hash, INSERT. -/
def signup (hash : String → String) (st : Store)
    (username email password : Option String) : Store × Resp :=
  if falsy username || falsy email || falsy password then
    (st, ⟨400, false, "All fields required", none⟩)
  else
    let e := normalizeEmail (email.getD "")
    if !emailRegexTest e then
      (st, ⟨400, false, "Invalid email format", none⟩)
    else if !passwordRegexTest (password.getD "") then
      (st, ⟨400, false,
        "Password must contain 1 uppercase, 1 number, 1 special character & min 8 chars",
        none⟩)
    else
      match dbGetByEmail st e with
      | some _ => (st, ⟨409, false, "Email already registered", none⟩)
      | none =>
        signupInsertPhase st (username.getD "") e (hash (password.getD ""))

/-- The `POST /login` handler (src/server.mjs lines 140-199), sequentially:
truthiness check of the two fields, email normalization, lookup by email,
bcrypt compare, success payload `{id, username, email}`. -/
def login (compare : String → String → Bool) (st : Store)
    (email password : Option String) : Resp :=
  if falsy email || falsy password then
    ⟨400, false, "Email and password required", none⟩
  else
    let e := normalizeEmail (email.getD "")
    match dbGetByEmail st e with
    | none => ⟨401, false, "Invalid Email or Password", none⟩
    | some user =>
      if !compare (password.getD "") user.password then
        ⟨401, false, "Invalid Email or Password", none⟩
      else
        ⟨200, true, "Login successful",
          some ⟨user.id, user.username, user.email⟩⟩

/-- The strings of a response a client could read: the `message` and, when
present, the `username` and `email` of the `user` object. -/
def respStrings (r : Resp) : List String :=
  r.message :: (match r.user with
    | none => []
    | some uv => [uv.username, uv.email])

/-- A concrete stand-in for `bcrypt.hash` used by closed witnesses. -/
def cHash (p : String) : String := "#" ++ p

/-- A concrete stand-in for `bcrypt.compare` compatible with `cHash`. -/
def cCompare (p h : String) : Bool := decide (h = "#" ++ p)

/-! ### Helper lemmas shared by the claim theorems -/

lemma falsy_some_of_ne {s : String} (h : s ≠ "") : falsy (some s) = false := by
  simp [falsy, h]

lemma dbGetByEmail_eq_none_of {st : Store} {e : String}
    (h : ∀ r ∈ st.rows, r.email ≠ e) : dbGetByEmail st e = none := by
  simp only [dbGetByEmail, List.find?_eq_none, decide_eq_true_eq]
  exact h

lemma rows_any_eq_false {st : Store} {e : String}
    (h : ∀ r ∈ st.rows, r.email ≠ e) :
    (st.rows.any (fun r => r.email = e)) = false := by
  simp only [List.any_eq_false, decide_eq_true_eq]
  exact h

/-- Running the signup handler on a valid request whose normalized email is
fresh appends exactly one row (with the next AUTOINCREMENT id, the verbatim
username, the normalized email and the bcrypt hash) and answers the success
JSON. -/
lemma signup_ok (hash : String → String) (st : Store) (u e p : String)
    (hu : u ≠ "") (he : e ≠ "") (hp : p ≠ "")
    (hef : emailRegexTest (normalizeEmail e) = true)
    (hpw : passwordRegexTest p = true)
    (hfree : ∀ r ∈ st.rows, r.email ≠ normalizeEmail e) :
    signup hash st (some u) (some e) (some p) =
      (⟨st.rows ++ [⟨st.nextId, u, normalizeEmail e, hash p⟩], st.nextId + 1⟩,
       ⟨200, true, "Signup successful", none⟩) := by
  have hget := dbGetByEmail_eq_none_of hfree
  have hins := rows_any_eq_false hfree
  simp [signup, falsy_some_of_ne hu, falsy_some_of_ne he, falsy_some_of_ne hp,
    hef, hpw, hget, signupInsertPhase, dbRunInsert, hins]

/-- Running the signup handler on a valid request whose normalized email is
already stored leaves the store unchanged and answers 409. -/
lemma signup_dup (hash : String → String) (st : Store) (u e p : String)
    (hu : u ≠ "") (he : e ≠ "") (hp : p ≠ "")
    (hef : emailRegexTest (normalizeEmail e) = true)
    (hpw : passwordRegexTest p = true)
    (hdup : ∃ r ∈ st.rows, r.email = normalizeEmail e) :
    signup hash st (some u) (some e) (some p) =
      (st, ⟨409, false, "Email already registered", none⟩) := by
  have hsome : (dbGetByEmail st (normalizeEmail e)).isSome := by
    simp only [dbGetByEmail, List.find?_isSome, decide_eq_true_eq]
    obtain ⟨r, hr, hre⟩ := hdup
    exact ⟨r, hr, hre⟩
  obtain ⟨r', hr'⟩ := Option.isSome_iff_exists.mp hsome
  simp [signup, falsy_some_of_ne hu, falsy_some_of_ne he, falsy_some_of_ne hp,
    hef, hpw, hr']

lemma dbGetByEmail_snoc (rows : List User) (n : Nat) (row : User) (e : String)
    (hfree : ∀ r ∈ rows, r.email ≠ e) (hrow : row.email = e) :
    dbGetByEmail ⟨rows ++ [row], n⟩ e = some row := by
  have h₁ : rows.find? (fun r => r.email = e) = none := by
    simp only [List.find?_eq_none, decide_eq_true_eq]
    exact hfree
  simp [dbGetByEmail, List.find?_append, h₁, List.find?, hrow]

lemma login_found_match (compare : String → String → Bool) (st : Store)
    (e p : String) (u : User) (he : e ≠ "") (hp : p ≠ "")
    (hfind : dbGetByEmail st (normalizeEmail e) = some u)
    (hcmp : compare p u.password = true) :
    login compare st (some e) (some p) =
      ⟨200, true, "Login successful", some ⟨u.id, u.username, u.email⟩⟩ := by
  simp [login, falsy_some_of_ne he, falsy_some_of_ne hp, hfind, hcmp]

lemma login_found_mismatch (compare : String → String → Bool) (st : Store)
    (e p : String) (u : User) (he : e ≠ "") (hp : p ≠ "")
    (hfind : dbGetByEmail st (normalizeEmail e) = some u)
    (hcmp : compare p u.password = false) :
    login compare st (some e) (some p) =
      ⟨401, false, "Invalid Email or Password", none⟩ := by
  simp [login, falsy_some_of_ne he, falsy_some_of_ne hp, hfind, hcmp]

lemma login_notfound (compare : String → String → Bool) (st : Store)
    (e p : String) (he : e ≠ "") (hp : p ≠ "")
    (hfind : dbGetByEmail st (normalizeEmail e) = none) :
    login compare st (some e) (some p) =
      ⟨401, false, "Invalid Email or Password", none⟩ := by
  simp [login, falsy_some_of_ne he, falsy_some_of_ne hp, hfind]

/-! ### Claim theorems -/

/-- Claim C1: for every valid signup input whose password passes the
strength policy and whose normalized email is not yet registered (under
any bcrypt behavior satisfying `compare p (hash p) = true`), signup
succeeds, appends exactly the new row, and a subsequent login with the
same (email, password) succeeds with the created row's id in its user
object. -/
theorem signup_then_login_roundtrip
    (hash : String → String) (compare : String → String → Bool)
    (st : Store) (u e p : String)
    (hu : u ≠ "") (he : e ≠ "") (hp : p ≠ "")
    (hef : emailRegexTest (normalizeEmail e) = true)
    (hpw : passwordRegexTest p = true)
    (hfree : ∀ r ∈ st.rows, r.email ≠ normalizeEmail e)
    (hcmp : compare p (hash p) = true) :
    (signup hash st (some u) (some e) (some p)).2.success = true ∧
    (signup hash st (some u) (some e) (some p)).1.rows =
      st.rows ++ [⟨st.nextId, u, normalizeEmail e, hash p⟩] ∧
    (login compare (signup hash st (some u) (some e) (some p)).1
        (some e) (some p)).success = true ∧
    (login compare (signup hash st (some u) (some e) (some p)).1
        (some e) (some p)).user =
      some ⟨st.nextId, u, normalizeEmail e⟩ := by
  have hs := signup_ok hash st u e p hu he hp hef hpw hfree
  rw [hs]
  have hfind : dbGetByEmail
      ⟨st.rows ++ [⟨st.nextId, u, normalizeEmail e, hash p⟩], st.nextId + 1⟩
      (normalizeEmail e) =
      some ⟨st.nextId, u, normalizeEmail e, hash p⟩ :=
    dbGetByEmail_snoc st.rows (st.nextId + 1)
      ⟨st.nextId, u, normalizeEmail e, hash p⟩ (normalizeEmail e) hfree rfl
  have hl := login_found_match compare
      ⟨st.rows ++ [⟨st.nextId, u, normalizeEmail e, hash p⟩], st.nextId + 1⟩
      e p ⟨st.nextId, u, normalizeEmail e, hash p⟩ he hp hfind hcmp
  rw [hl]
  exact ⟨rfl, rfl, rfl, rfl⟩

/-- Witness for C1 at the spec's end-to-end scenario: signup of
`{username:"ana", email:"ANA@Example.com ", password:"Secure1!"}` against
an empty store, then login with `("ANA@Example.com ", "Secure1!")`. -/
theorem signup_then_login_roundtrip_witness :
    (signup cHash ⟨[], 1⟩ (some "ana") (some "ANA@Example.com ")
        (some "Secure1!")).2.success = true ∧
    (signup cHash ⟨[], 1⟩ (some "ana") (some "ANA@Example.com ")
        (some "Secure1!")).1.rows =
      [] ++ [⟨1, "ana", normalizeEmail "ANA@Example.com ", cHash "Secure1!"⟩] ∧
    (login cCompare (signup cHash ⟨[], 1⟩ (some "ana")
        (some "ANA@Example.com ") (some "Secure1!")).1
        (some "ANA@Example.com ") (some "Secure1!")).success = true ∧
    (login cCompare (signup cHash ⟨[], 1⟩ (some "ana")
        (some "ANA@Example.com ") (some "Secure1!")).1
        (some "ANA@Example.com ") (some "Secure1!")).user =
      some ⟨1, "ana", normalizeEmail "ANA@Example.com "⟩ :=
  signup_then_login_roundtrip cHash cCompare ⟨[], 1⟩
    "ana" "ANA@Example.com " "Secure1!"
    (by decide) (by decide) (by decide) (by decide) (by decide)
    (by intro r hr; simp at hr) (by decide)

/-- Claim C2 (bug exhibit): when the INSERT of the signup handler fails —
here because a row with the same normalized email is already stored, as a
concurrent duplicate signup would leave it — the modelled `db.run` reports
failure, yet the handler's callback, which ignores sqlite3's error
argument, still sends `200 {success:true, "Signup successful"}` instead of
a generic server error.  The store is left unchanged (no duplicate row),
so only the response contradicts the claim. -/
theorem signup_insert_failure_still_reports_success :
    dbRunInsert ⟨[⟨1, "u", "a@b.com", "#h"⟩], 2⟩ "u2" "a@b.com" "#h2" =
      none ∧
    signupInsertPhase ⟨[⟨1, "u", "a@b.com", "#h"⟩], 2⟩ "u2" "a@b.com" "#h2" =
      (⟨[⟨1, "u", "a@b.com", "#h"⟩], 2⟩,
       ⟨200, true, "Signup successful", none⟩) := by
  constructor
  · decide
  · decide

/-- Claim C3 counterexample: a signup request whose normalized email
(`a@b.com`) is already stored but whose password (`weak`) fails the
strength check is answered with the 400 weak-password response, not with
the 409 ConflictError, so the claim as stated (over every such request)
fails. -/
theorem signup_duplicate_not_always_conflict :
    (∃ r ∈ (⟨[⟨1, "u", "a@b.com", "#h"⟩], 2⟩ : Store).rows,
        r.email = normalizeEmail "a@b.com") ∧
    (signup cHash ⟨[⟨1, "u", "a@b.com", "#h"⟩], 2⟩
        (some "u2") (some "a@b.com") (some "weak")).2.status ≠ 409 ∧
    (signup cHash ⟨[⟨1, "u", "a@b.com", "#h"⟩], 2⟩
        (some "u2") (some "a@b.com") (some "weak")).2.status = 400 := by
  refine ⟨⟨⟨1, "u", "a@b.com", "#h"⟩, by decide, by decide⟩, by decide, by decide⟩

/-- Claim C3 (amended): every signup request that passes the
required-field, email-format and password-strength checks and whose
normalized email is already stored is answered with the 409
"Email already registered" conflict response, and the store is unchanged
(no insertion). -/
theorem signup_duplicate_conflict
    (hash : String → String) (st : Store) (u e p : String)
    (hu : u ≠ "") (he : e ≠ "") (hp : p ≠ "")
    (hef : emailRegexTest (normalizeEmail e) = true)
    (hpw : passwordRegexTest p = true)
    (hdup : ∃ r ∈ st.rows, r.email = normalizeEmail e) :
    signup hash st (some u) (some e) (some p) =
      (st, ⟨409, false, "Email already registered", none⟩) :=
  signup_dup hash st u e p hu he hp hef hpw hdup

/-- Witness for the amended C3: duplicate signup of `a@b.com` with a
policy-conformant password against a store already holding that email. -/
theorem signup_duplicate_conflict_witness :
    signup cHash ⟨[⟨1, "u", "a@b.com", "#h"⟩], 2⟩
        (some "u2") (some "a@b.com") (some "Passw0rd!") =
      (⟨[⟨1, "u", "a@b.com", "#h"⟩], 2⟩,
       ⟨409, false, "Email already registered", none⟩) :=
  signup_duplicate_conflict cHash ⟨[⟨1, "u", "a@b.com", "#h"⟩], 2⟩
    "u2" "a@b.com" "Passw0rd!"
    (by decide) (by decide) (by decide) (by decide) (by decide)
    ⟨⟨1, "u", "a@b.com", "#h"⟩, by decide, by decide⟩

/-- Claim C4: both handlers key the store on
`normalizeEmail` (= `toLowerCase().trim()`) of the input email: a valid
signup whose normalized email collides with a stored row is rejected 409;
a valid signup with a fresh normalized email stores exactly the normalized
email; and the email in any successful login payload is the normalized
input email. -/
theorem email_normalized_for_storage_and_lookup
    (hash : String → String) (compare : String → String → Bool)
    (st : Store) (u e p : String)
    (hu : u ≠ "") (he : e ≠ "") (hp : p ≠ "")
    (hef : emailRegexTest (normalizeEmail e) = true)
    (hpw : passwordRegexTest p = true) :
    ((∃ r ∈ st.rows, r.email = normalizeEmail e) →
      signup hash st (some u) (some e) (some p) =
        (st, ⟨409, false, "Email already registered", none⟩)) ∧
    ((∀ r ∈ st.rows, r.email ≠ normalizeEmail e) →
      signup hash st (some u) (some e) (some p) =
        (⟨st.rows ++ [⟨st.nextId, u, normalizeEmail e, hash p⟩],
          st.nextId + 1⟩,
         ⟨200, true, "Signup successful", none⟩)) ∧
    (∀ uv : UserView,
      (login compare st (some e) (some p)).user = some uv →
      uv.email = normalizeEmail e) := by
  refine ⟨fun hdup => signup_dup hash st u e p hu he hp hef hpw hdup,
    fun hfree => signup_ok hash st u e p hu he hp hef hpw hfree, ?_⟩
  intro uv huv
  by_cases hfind : ∃ urow, dbGetByEmail st (normalizeEmail e) = some urow
  · obtain ⟨urow, hurow⟩ := hfind
    have hmem : urow.email = normalizeEmail e := by
      have := List.find?_some hurow
      simpa using this
    by_cases hcmp : compare p urow.password = true
    · rw [login_found_match compare st e p urow he hp hurow hcmp] at huv
      cases huv
      exact hmem
    · rw [login_found_mismatch compare st e p urow he hp hurow
        (Bool.eq_false_iff.mpr hcmp)] at huv
      cases huv
  · have hnone : dbGetByEmail st (normalizeEmail e) = none := by
      cases h : dbGetByEmail st (normalizeEmail e) with
      | none => rfl
      | some urow => exact absurd ⟨urow, h⟩ hfind
    rw [login_notfound compare st e p he hp hnone] at huv
    cases huv

/-- Witness for C4 at the spec's case-collision example: signup with
`Foo@Bar.com` against a store holding `foo@bar.com` is rejected 409. -/
theorem email_normalized_witness :
    signup cHash ⟨[⟨1, "u", "foo@bar.com", "#h"⟩], 2⟩
        (some "u2") (some "Foo@Bar.com") (some "Passw0rd!") =
      (⟨[⟨1, "u", "foo@bar.com", "#h"⟩], 2⟩,
       ⟨409, false, "Email already registered", none⟩) :=
  (email_normalized_for_storage_and_lookup cHash cCompare
      ⟨[⟨1, "u", "foo@bar.com", "#h"⟩], 2⟩ "u2" "Foo@Bar.com" "Passw0rd!"
      (by decide) (by decide) (by decide) (by decide) (by decide)).1
    ⟨⟨1, "u", "foo@bar.com", "#h"⟩, by decide, by decide⟩

/-- Claim C5: a login with a registered email but a password the bcrypt
compare rejects and a login with an unregistered email receive literally
the same response — status 401, message "Invalid Email or Password" — so
responses do not reveal whether an email exists. -/
theorem login_no_user_enumeration
    (compare : String → String → Bool) (st : Store)
    (e₁ p₁ e₂ p₂ : String)
    (he₁ : e₁ ≠ "") (hp₁ : p₁ ≠ "") (he₂ : e₂ ≠ "") (hp₂ : p₂ ≠ "")
    (hreg : ∃ u, dbGetByEmail st (normalizeEmail e₁) = some u ∧
      compare p₁ u.password = false)
    (hnone : dbGetByEmail st (normalizeEmail e₂) = none) :
    login compare st (some e₁) (some p₁) =
      login compare st (some e₂) (some p₂) ∧
    login compare st (some e₁) (some p₁) =
      ⟨401, false, "Invalid Email or Password", none⟩ := by
  obtain ⟨u, hu, hc⟩ := hreg
  rw [login_found_mismatch compare st e₁ p₁ u he₁ hp₁ hu hc,
    login_notfound compare st e₂ p₂ he₂ hp₂ hnone]
  exact ⟨rfl, rfl⟩

/-- Witness for C5: wrong password for the stored `ana@example.com` versus
a login for the absent `bob@example.com`. -/
theorem login_no_user_enumeration_witness :
    login cCompare ⟨[⟨1, "ana", "ana@example.com", "#Secure1!"⟩], 2⟩
        (some "ana@example.com") (some "WrongPass1!") =
      login cCompare ⟨[⟨1, "ana", "ana@example.com", "#Secure1!"⟩], 2⟩
        (some "bob@example.com") (some "Secure1!") ∧
    login cCompare ⟨[⟨1, "ana", "ana@example.com", "#Secure1!"⟩], 2⟩
        (some "ana@example.com") (some "WrongPass1!") =
      ⟨401, false, "Invalid Email or Password", none⟩ :=
  login_no_user_enumeration cCompare
    ⟨[⟨1, "ana", "ana@example.com", "#Secure1!"⟩], 2⟩
    "ana@example.com" "WrongPass1!" "bob@example.com" "Secure1!"
    (by decide) (by decide) (by decide) (by decide)
    ⟨⟨1, "ana", "ana@example.com", "#Secure1!"⟩, by decide, by decide⟩
    (by decide)

/-- Claim C6: a signup whose fields are present (truthy) and whose email
is well-formed but whose password is shorter than 8 characters, or lacks
an uppercase letter, a digit, or a listed special character, is answered
with the 400 weak-password response, for every store, which is left
untouched. -/
theorem signup_weak_password_rejected
    (hash : String → String) (st : Store) (u e p : String)
    (hu : u ≠ "") (he : e ≠ "") (hp : p ≠ "")
    (hef : emailRegexTest (normalizeEmail e) = true)
    (hweak : p.data.length < 8 ∨ p.data.any pwUpper = false ∨
      p.data.any pwDigit = false ∨ p.data.any pwSpecial = false) :
    signup hash st (some u) (some e) (some p) =
      (st, ⟨400, false,
        "Password must contain 1 uppercase, 1 number, 1 special character & min 8 chars",
        none⟩) := by
  have hpw : passwordRegexTest p = false := by
    rcases hweak with h | h | h | h
    · simp only [passwordRegexTest, decide_eq_false (Nat.not_le.mpr h),
        Bool.false_and]
    · simp only [passwordRegexTest, h, Bool.and_false, Bool.false_and]
    · simp only [passwordRegexTest, h, Bool.and_false, Bool.false_and]
    · simp only [passwordRegexTest, h, Bool.and_false]
  simp [signup, falsy_some_of_ne hu, falsy_some_of_ne he,
    falsy_some_of_ne hp, hef, hpw]

/-- Witness for C6 at the spec's example `"short1"` (length 6, no
uppercase, no listed special character). -/
theorem signup_weak_password_rejected_witness :
    signup cHash ⟨[], 1⟩ (some "ana") (some "a@b.com") (some "short1") =
      (⟨[], 1⟩, ⟨400, false,
        "Password must contain 1 uppercase, 1 number, 1 special character & min 8 chars",
        none⟩) :=
  signup_weak_password_rejected cHash ⟨[], 1⟩ "ana" "a@b.com" "short1"
    (by decide) (by decide) (by decide) (by decide) (Or.inl (by decide))

/-- Claim C7: a signup with an absent or empty username, email or
password is answered 400 "All fields required", and a login with an
absent or empty email or password is answered 400
"Email and password required"; in both cases for every store, which is
returned untouched (no read or write can influence or be influenced by
the response). -/
theorem missing_fields_rejected
    (hash : String → String) (compare : String → String → Bool)
    (st : Store) :
    (∀ u? e? p? : Option String,
      (falsy u? || falsy e? || falsy p?) = true →
      signup hash st u? e? p? =
        (st, ⟨400, false, "All fields required", none⟩)) ∧
    (∀ e? p? : Option String, (falsy e? || falsy p?) = true →
      login compare st e? p? =
        ⟨400, false, "Email and password required", none⟩) := by
  constructor
  · intro u? e? p? h
    simp [signup, h]
  · intro e? p? h
    simp [login, h]

/-- Witness for C7: an absent username on signup and an empty password on
login. -/
theorem missing_fields_rejected_witness :
    signup cHash ⟨[], 1⟩ none (some "a@b.com") (some "Passw0rd!") =
      (⟨[], 1⟩, ⟨400, false, "All fields required", none⟩) ∧
    login cCompare ⟨[], 1⟩ (some "a@b.com") (some "") =
      ⟨400, false, "Email and password required", none⟩ :=
  ⟨(missing_fields_rejected cHash cCompare ⟨[], 1⟩).1
      none (some "a@b.com") (some "Passw0rd!") (by decide),
    (missing_fields_rejected cHash cCompare ⟨[], 1⟩).2
      (some "a@b.com") (some "") (by decide)⟩

/-- Claim C8: a successful login's user object is exactly
`{id, username, email}` of the stored row found by the lookup, and every
string in any login response is either one of the three fixed messages or
the username/email of a stored row — never drawn from the password
column, so the stored hash is never returned. -/
theorem login_response_shape
    (compare : String → String → Bool) (st : Store)
    (e? p? : Option String) :
    ((login compare st e? p?).success = true →
      ∃ urow ∈ st.rows,
        dbGetByEmail st (normalizeEmail (e?.getD "")) = some urow ∧
        (login compare st e? p?).user =
          some ⟨urow.id, urow.username, urow.email⟩) ∧
    (∀ s ∈ respStrings (login compare st e? p?),
      s = "Email and password required" ∨
      s = "Invalid Email or Password" ∨ s = "Login successful" ∨
      ∃ urow ∈ st.rows, s = urow.username ∨ s = urow.email) := by
  by_cases hv : (falsy e? || falsy p?) = true
  · constructor
    · intro hsucc
      simp [login, hv] at hsucc
    · intro s hs
      simp [login, hv, respStrings] at hs
      exact Or.inl hs
  · have hv' : (falsy e? || falsy p?) = false := by
      simpa using hv
    cases hfind : dbGetByEmail st (normalizeEmail (e?.getD "")) with
    | none =>
      constructor
      · intro hsucc
        simp [login, hv', hfind] at hsucc
      · intro s hs
        simp [login, hv', hfind, respStrings] at hs
        exact Or.inr (Or.inl hs)
    | some urow =>
      have hmem : urow ∈ st.rows := List.mem_of_find?_eq_some hfind
      cases hcmp : compare (p?.getD "") urow.password with
      | false =>
        constructor
        · intro hsucc
          simp [login, hv', hfind, hcmp] at hsucc
        · intro s hs
          simp [login, hv', hfind, hcmp, respStrings] at hs
          exact Or.inr (Or.inl hs)
      | true =>
        constructor
        · intro _
          exact ⟨urow, hmem, rfl, by simp [login, hv', hfind, hcmp]⟩
        · intro s hs
          simp [login, hv', hfind, hcmp, respStrings] at hs
          rcases hs with h | h | h
          · exact Or.inr (Or.inr (Or.inl h))
          · exact Or.inr (Or.inr (Or.inr ⟨urow, hmem, Or.inl h⟩))
          · exact Or.inr (Or.inr (Or.inr ⟨urow, hmem, Or.inr h⟩))

/-- Witness for C8: the successful login of the stored `ana@example.com`
carries exactly that row's id, username and email. -/
theorem login_response_shape_witness :
    ∃ urow ∈ (⟨[⟨1, "ana", "ana@example.com", "#Secure1!"⟩], 2⟩ :
        Store).rows,
      dbGetByEmail ⟨[⟨1, "ana", "ana@example.com", "#Secure1!"⟩], 2⟩
          (normalizeEmail ((some "ana@example.com").getD "")) = some urow ∧
      (login cCompare ⟨[⟨1, "ana", "ana@example.com", "#Secure1!"⟩], 2⟩
          (some "ana@example.com") (some "Secure1!")).user =
        some ⟨urow.id, urow.username, urow.email⟩ :=
  (login_response_shape cCompare
      ⟨[⟨1, "ana", "ana@example.com", "#Secure1!"⟩], 2⟩
      (some "ana@example.com") (some "Secure1!")).1 (by decide)

/-- Claim C9: a password accepted by the strength regex consists solely
of characters from `[A-Za-z0-9@$!%*?&]`; the regex does not require a
lowercase letter (`"ABCDEF1!"` passes with none); and any password
containing a character outside that class is rejected, regardless of its
other properties. -/
theorem password_policy_charset :
    (∀ p : String, passwordRegexTest p = true →
      p.data.all pwAllowed = true) ∧
    (passwordRegexTest "ABCDEF1!" = true ∧
      "ABCDEF1!".data.all (fun c => !pwLower c) = true) ∧
    (∀ p : String, ∀ c ∈ p.data, pwAllowed c = false →
      passwordRegexTest p = false) := by
  refine ⟨?_, ⟨by decide, by decide⟩, ?_⟩
  · intro p h
    unfold passwordRegexTest at h
    simp only [Bool.and_eq_true] at h
    exact h.1.1.1.2
  · intro p c hc hbad
    unfold passwordRegexTest
    have hall : p.data.all pwAllowed = false := by
      rw [List.all_eq_false]
      exact ⟨c, hc, by simp [hbad]⟩
    simp [hall]

/-- Witness for C9: `"Passw0rd! "`, `"Passw0rd!#"` and `"Passw0rd!_"`
each have 10 characters, an uppercase letter, a digit and a listed
special character, yet are rejected for their space, `#` and `_`. -/
theorem password_policy_charset_witness :
    passwordRegexTest "Passw0rd! " = false ∧
    passwordRegexTest "Passw0rd!#" = false ∧
    passwordRegexTest "Passw0rd!_" = false :=
  ⟨password_policy_charset.2.2 "Passw0rd! " ' ' (by decide) (by decide),
    password_policy_charset.2.2 "Passw0rd!#" '#' (by decide) (by decide),
    password_policy_charset.2.2 "Passw0rd!_" '_' (by decide) (by decide)⟩

/-- Claim C10: the truthiness check lets a whitespace-only username such
as `" "` through (`falsy (some " ") = false`), and a successful signup
inserts the username exactly as supplied — no trimming or normalization
is applied to it. -/
theorem username_stored_verbatim
    (hash : String → String) (st : Store) (u e p : String)
    (hu : u ≠ "") (he : e ≠ "") (hp : p ≠ "")
    (hef : emailRegexTest (normalizeEmail e) = true)
    (hpw : passwordRegexTest p = true)
    (hfree : ∀ r ∈ st.rows, r.email ≠ normalizeEmail e) :
    falsy (some " ") = false ∧
    (signup hash st (some u) (some e) (some p)).1.rows =
      st.rows ++ [⟨st.nextId, u, normalizeEmail e, hash p⟩] ∧
    (signup hash st (some u) (some e) (some p)).2.success = true := by
  rw [signup_ok hash st u e p hu he hp hef hpw hfree]
  exact ⟨by decide, rfl, rfl⟩

/-- Witness for C10 at the whitespace-only username `" "` itself: it
passes validation and is inserted unchanged. -/
theorem username_stored_verbatim_witness :
    falsy (some " ") = false ∧
    (signup cHash ⟨[], 1⟩ (some " ") (some "a@b.com")
        (some "Passw0rd!")).1.rows =
      [] ++ [⟨1, " ", normalizeEmail "a@b.com", cHash "Passw0rd!"⟩] ∧
    (signup cHash ⟨[], 1⟩ (some " ") (some "a@b.com")
        (some "Passw0rd!")).2.success = true :=
  username_stored_verbatim cHash ⟨[], 1⟩ " " "a@b.com" "Passw0rd!"
    (by decide) (by decide) (by decide) (by decide) (by decide)
    (by intro r hr; simp at hr)

end BrokAi
